import Mathlib

/-!
Shallow embedding of `src/quash/src/execute.c` (the execution core of the
quash shell) and verification of its specification claims.

Modelling conventions:
* Machine strings (`char*`) are Lean `String`; a possibly-NULL `char*` is
  `Option String`.
* `pid_t` values and job ids are `Nat` (both are nonnegative in every use
  here, so `printf("%d", ·)` agrees with `toString`).
* File-descriptor plumbing is modelled symbolically: a process's stdin and
  stdout are `FdSrc` values describing where the descriptor finally points
  after the sequence of `dup2` calls that the source performs.
* `fork`/`execvp` outcomes are explicit boolean parameters (`forkOk`,
  `execOk`): the embedding of a function computes the observable events of
  each control-flow branch the source can take.
-/

namespace Quash

/-- `EXIT_FAILURE` from `<stdlib.h>`. -/
def EXIT_FAILURE : Nat := 1

/-- `EXIT_SUCCESS` from `<stdlib.h>`. -/
def EXIT_SUCCESS : Nat := 0

/-- The flag bits read from `holder.flags` / `cmd.flags` in execute.c:
`BACKGROUND`, `PIPE_OUT`, `REDIRECT_IN`, `REDIRECT_OUT` (the only flags the
source ever tests). -/
structure Flags where
  background : Bool := false
  pipe_out : Bool := false
  redirect_in : Bool := false
  redirect_out : Bool := false
deriving DecidableEq, Repr

/-- `GenericCommand`: argument vector plus the flag word that
`run_generic` reads (`cmd.flags & BACKGROUND`). A NULL or empty `argv`
is modelled by the empty list. -/
structure GenericCommand where
  args : List String
  flags : Flags
deriving DecidableEq, Repr

/-- The `Command` union, one variant per `CommandType` used in execute.c. -/
inductive Command where
  | generic (cmd : GenericCommand)
  | echo (args : List String)
  | exportEnv (env_var val : String)
  | cd (dir : Option String)
  | kill (job : Int) (sig : Int)
  | pwd
  | jobs
  | eoc
deriving DecidableEq, Repr

/-- The `CommandType` discriminant returned by `get_command_type`. -/
inductive CommandType where
  | GENERIC | ECHO | EXPORT | CD | KILL | PWD | JOBS | EOC
deriving DecidableEq, Repr

/-- `get_command_type`: the discriminant of a `Command`. -/
def get_command_type : Command → CommandType
  | .generic _ => .GENERIC
  | .echo _ => .ECHO
  | .exportEnv _ _ => .EXPORT
  | .cd _ => .CD
  | .kill _ _ => .KILL
  | .pwd => .PWD
  | .jobs => .JOBS
  | .eoc => .EOC

/-- `CommandHolder`: one pipeline stage (flags, redirection paths, command). -/
structure CommandHolder where
  flags : Flags
  redirect_in : String := ""
  redirect_out : String := ""
  cmd : Command
deriving DecidableEq, Repr

/-- `get_command_holder_type(holder)` = `get_command_type(holder.cmd)`. -/
def get_command_holder_type (h : CommandHolder) : CommandType :=
  get_command_type h.cmd

/-! ## Symbolic file descriptors -/

/-- Where a standard descriptor of a spawned stage finally points. Pipes are
numbered in creation order (`pipe(fds)` in `create_process` allocates the
next id). `inherited` means the descriptor was never `dup2`-ed in the child
and therefore still refers to whatever the shell itself had. -/
inductive FdSrc where
  | inherited
  | file (path : String)
  | pipeWrite (id : Nat)
  | pipeRead (id : Nat)
deriving DecidableEq, Repr

/-- The child-visible result of the descriptor set-up block of
`create_process` (execute.c lines 215-229). -/
structure ChildFds where
  stdin : FdSrc
  stdout : FdSrc
  /-- paths passed to `open(·, O_RDONLY)` by the child. -/
  openedRead : List String
  /-- paths passed to `open(·, O_WRONLY | O_CREAT | O_TRUNC, 0644)` by the
  child (created/truncated even if the descriptor is later overwritten). -/
  openedWrite : List String
deriving DecidableEq, Repr

/-- Descriptor set-up performed in the child branch of `create_process`, in
source order: `REDIRECT_IN` (dup2 onto fd 0), then `REDIRECT_OUT` (dup2 onto
fd 1), then `PIPE_OUT` (dup2 the pipe's write end onto fd 1). `pipeId` is
the id of the pipe created by `pipe(fds)` for this stage when
`flags.pipe_out` is set. -/
def child_setup_fds (h : CommandHolder) (pipeId : Nat) : ChildFds :=
  let f0 : ChildFds := ⟨.inherited, .inherited, [], []⟩
  let f1 := if h.flags.redirect_in then
      { f0 with stdin := .file h.redirect_in, openedRead := [h.redirect_in] }
    else f0
  let f2 := if h.flags.redirect_out then
      { f1 with stdout := .file h.redirect_out, openedWrite := [h.redirect_out] }
    else f1
  if h.flags.pipe_out then { f2 with stdout := .pipeWrite pipeId } else f2

/-! ## Terminal line formats (`print_job` and friends) -/

/-- Rendering of a `%<w>d` printf conversion for a nonnegative value:
decimal digits right-justified in a field of minimum width `w`, padded on
the left with spaces. -/
def fmt_min_width (w : Nat) (s : String) : String :=
  String.mk (List.replicate (w - s.length) ' ') ++ s

/-- `print_job`: the line produced by
`printf("[%d]\t%8d\t%s\n", job_id, pid, cmd)`. -/
def print_job_line (job_id pid : Nat) (cmd : String) : String :=
  "[" ++ toString job_id ++ "]\t" ++ fmt_min_width 8 (toString pid) ++ "\t" ++ cmd ++ "\n"

/-- `print_job_bg_start`: `printf("Background job started: ")` followed by
`print_job`. -/
def print_job_bg_start_line (job_id pid : Nat) (cmd : String) : String :=
  "Background job started: " ++ print_job_line job_id pid cmd

/-- `print_job_bg_complete`: `printf("Completed: \t")` followed by
`print_job`. -/
def print_job_bg_complete_line (job_id pid : Nat) (cmd : String) : String :=
  "Completed: \t" ++ print_job_line job_id pid cmd

/-- The job-listing line format exactly as the specification words it:
`"[<id>]\t<pid>\t<display>\n"` with single tabs and no other padding.
Stated from the spec for comparison with `print_job_line`. -/
def claimed_job_line (job_id pid : Nat) (cmd : String) : String :=
  "[" ++ toString job_id ++ "]\t" ++ toString pid ++ "\t" ++ cmd ++ "\n"

/-! ## run_echo -/

/-- `run_echo`: the characters written to stdout by the loop
`for (arg = cmd.args; *arg; ++arg) printf("%s ", *arg);` followed by
`printf("\n")`. -/
def run_echo (args : List String) : String :=
  args.foldl (fun acc a => acc ++ a ++ " ") "" ++ "\n"

/-! ## Processes and run_generic

`run_generic` has exactly one call site: `child_run_command`, which
`create_process` invokes in its forked child (execute.c line 230). The
process that calls `run_generic` is therefore the orchestrator's child
(`Proc.stageChild`), and the `fork()` inside `run_generic` (line 80)
creates a further process (`Proc.grandchild`). -/

/-- The processes that can exist while one pipeline stage runs: the shell
itself, the child forked by `create_process`, and the further child forked
by `run_generic`. -/
inductive Proc where
  | shell
  | stageChild
  | grandchild
deriving DecidableEq, Repr

/-- How a process's life ends: its image replaced by `execvp`, or a plain
exit with the given status. -/
inductive ChildOutcome where
  | execReplaced (prog : String)
  | exited (status : Nat)
deriving DecidableEq, Repr

/-- Observable events of one `run_generic` call (execute.c lines 74-99),
as seen across the whole process tree. -/
structure GenericRun where
  /-- `"ERROR: No command provided."` printed to stderr. -/
  errEmpty : Bool
  /-- `perror("ERROR: Fork failed")`. -/
  errFork : Bool
  /-- the additional process created by the `fork()` inside `run_generic`,
  if that fork happened and succeeded. -/
  forkedNew : Option Proc
  /-- what becomes of that additional process. -/
  newOutcome : Option ChildOutcome
  /-- the caller blocked in `waitpid` for the new process. -/
  waited : Bool
  /-- the process that executes `add_background_job(pid, cmd.args[0])`,
  mutating that process's copy of the job table. -/
  registeredIn : Option Proc
  /-- the process that executes `print_job_bg_start`. -/
  startNoticeIn : Option Proc
  /-- `run_generic` returns control to the process that invoked it. -/
  returnsToCaller : Bool
deriving DecidableEq, Repr

/-- Semantics of `run_generic cmd` when invoked (via `child_run_command`)
in the orchestrator's forked child. `forkOk` is the outcome of the
`fork()` on line 80; `execOk` is whether `execvp` on line 88 succeeds.

Branches, in source order: NULL/empty argv check; `pid < 0`; `pid == 0`
(the grandchild calls `execvp`, and on its failure `perror`s and
`_exit(EXIT_FAILURE)`s); else the caller either `waitpid`s (foreground) or
registers the job and prints the start notice (background). -/
def run_generic_sem (cmd : GenericCommand) (forkOk execOk : Bool) : GenericRun :=
  if cmd.args.isEmpty then
    { errEmpty := true, errFork := false, forkedNew := none, newOutcome := none,
      waited := false, registeredIn := none, startNoticeIn := none,
      returnsToCaller := true }
  else if !forkOk then
    { errEmpty := false, errFork := true, forkedNew := none, newOutcome := none,
      waited := false, registeredIn := none, startNoticeIn := none,
      returnsToCaller := true }
  else
    let out : ChildOutcome :=
      if execOk then .execReplaced (cmd.args.headD "") else .exited EXIT_FAILURE
    if !cmd.flags.background then
      { errEmpty := false, errFork := false, forkedNew := some .grandchild,
        newOutcome := some out, waited := true, registeredIn := none,
        startNoticeIn := none, returnsToCaller := true }
    else
      { errEmpty := false, errFork := false, forkedNew := some .grandchild,
        newOutcome := some out, waited := false, registeredIn := some .stageChild,
        startNoticeIn := some .stageChild, returnsToCaller := true }

/-- Exit behaviour of the process forked by `create_process`: it runs
`child_run_command(holder.cmd)` and then `_exit(EXIT_FAILURE)` (execute.c
lines 230-231). `run_echo`, `run_pwd`, `run_jobs` and the
unknown-command branch all return; `run_generic` performs its `execvp` in
a further forked process, so whether the stage child itself ever escapes
the final `_exit` is exactly whether `run_generic` fails to return. -/
def stage_child_outcome (cmd : Command) (forkOk execOk : Bool) : ChildOutcome :=
  match cmd with
  | .generic g =>
      match (run_generic_sem g forkOk execOk).returnsToCaller with
      | true => .exited EXIT_FAILURE
      | false => .execReplaced (g.args.headD "")
  | _ => .exited EXIT_FAILURE

/-! ## create_process and run_script -/

/-- What the shell process observes from one `create_process` call
(execute.c lines 208-238), with the `fork()` result made explicit: `fork`
returns the child pid (positive) on success and `-1` on failure, and the
source tests only `pid == 0`, so both outcomes run the else branch. -/
structure CreateProcShell where
  /-- a child process actually exists. -/
  childCreated : Bool
  /-- `parent_run_command` was invoked, and on this command. -/
  parentRanOn : Option Command
  /-- some failure was reported to the error stream by `create_process`
  itself (the source contains no such report). -/
  errReported : Bool
deriving DecidableEq, Repr

/-- Parent-side control flow of `create_process h` when `fork()` yields
`forkResult` (`-1` for failure, a positive pid for success). -/
def create_process_shell (h : CommandHolder) (forkResult : Int) : CreateProcShell :=
  if forkResult = 0 then
    { childCreated := false, parentRanOn := none, errReported := false }
  else
    { childCreated := 0 < forkResult, parentRanOn := some h.cmd, errReported := false }

/-- One spawned pipeline stage: its command and where its stdin/stdout
point after the child's descriptor set-up. -/
structure Spawned where
  cmd : Command
  fds : ChildFds
deriving DecidableEq, Repr

/-- The stage spawned by one (successful) `create_process` call, threading
the count of pipes created so far: `pipe(fds)` on line 210 allocates pipe
number `pipeCount` when `PIPE_OUT` is set. The parent branch closes
`fds[1]` and then discards `fds` (a local variable): the read end is never
handed to any later stage, so nothing of this call flows into the next
one except the incremented pipe count. -/
def create_process_spawn (h : CommandHolder) (pipeCount : Nat) : Spawned × Nat :=
  (⟨h.cmd, child_setup_fds h pipeCount⟩,
   if h.flags.pipe_out then pipeCount + 1 else pipeCount)

/-- Spawns produced by the `create_process` loop of `run_script` over the
given stages, in order. -/
def spawn_stages : List CommandHolder → Nat → List Spawned
  | [], _ => []
  | h :: t, n =>
      let (s, n') := create_process_spawn h n
      s :: spawn_stages t n'

/-- A tracked background job as the Job Registry holds it: id, pid,
display string, and whether the underlying process has finished. -/
structure Job where
  job_id : Nat
  pid : Nat
  cmd : String
  finished : Bool
deriving DecidableEq, Repr

/-- The Job Registry's table. -/
abbrev Registry : Type := List Job

/-- `check_jobs_bg_status` as the compiler sees it (execute.c lines 40-49):
the polling loop is wrapped in `#ifdef get_finished_job`; `get_finished_job`
names a registry function (spec section 6's poll interface), not a
preprocessor macro, so the conditional is false, the loop is removed by the
preprocessor, and the compiled function touches nothing and prints
nothing. Returns the (unchanged) registry and the (empty) list of printed
completion notices. -/
def check_jobs_bg_status (r : Registry) : Registry × List String :=
  (r, [])

/-- Modelled from the spec: the completion poll that execute.c's
`check_jobs_bg_status` is documented to perform — "poll the Job Registry
once for jobs that finished since the last poll and emit a completion
notice for each", after which a further listing no longer includes those
jobs. Stated from the spec's words for comparison with
`check_jobs_bg_status`. -/
def spec_poll_finished_jobs (r : Registry) : Registry × List String :=
  (r.filter (fun j => !j.finished),
   (r.filter (fun j => j.finished)).map
     (fun j => print_job_bg_complete_line j.job_id j.pid j.cmd))

/-- Observable shape of one `run_script` call (execute.c lines 241-254):
the completion notices printed by the initial `check_jobs_bg_status` call,
the stages spawned (in order), and how many `wait(NULL)` calls follow. -/
structure ScriptRun where
  polledNotices : List String
  spawns : List Spawned
  waitCalls : Nat
deriving DecidableEq, Repr

/-- `run_script holders r`: early return on a NULL list or a leading
`EOC`; otherwise poll (`check_jobs_bg_status`), spawn every stage up to
the `EOC` sentinel, and — unless stage 0 carries `BACKGROUND` — call
`wait(NULL)` once per stage. -/
def run_script (holders : List CommandHolder) (r : Registry) : ScriptRun :=
  match holders with
  | [] => ⟨[], [], 0⟩
  | h0 :: _ =>
    if get_command_holder_type h0 = CommandType.EOC then ⟨[], [], 0⟩
    else
      let stages := holders.takeWhile (fun h => get_command_holder_type h ≠ CommandType.EOC)
      let notices := (check_jobs_bg_status r).2
      ⟨notices, spawn_stages stages 0,
       if h0.flags.background then 0 else stages.length⟩

/-! ## run_cd -/

/-- Shell-session state the built-ins mutate: the working directory and
the process environment (an association list, first binding wins). -/
structure ShellState where
  cwd : String
  env : List (String × String)
deriving DecidableEq, Repr

/-- `setenv(name, val, 1)`: overwrite the binding for `name`, or append a
fresh one. -/
def setenv_upd (env : List (String × String)) (name val : String) :
    List (String × String) :=
  match env with
  | [] => [(name, val)]
  | p :: t => if p.1 = name then (name, val) :: t else p :: setenv_upd t name val

/-- `getenv(name)` against the modelled environment. -/
def env_lookup (env : List (String × String)) (name : String) : Option String :=
  match env with
  | [] => none
  | p :: t => if p.1 = name then some p.2 else env_lookup t name

/-- The filesystem facts `run_cd` consults: `realpath(dir, NULL)` (the
canonical absolute path, `none` when resolution fails) and whether
`chdir` on that canonical path succeeds. After a successful
`chdir(real_path)`, `getcwd` reports exactly `real_path`. -/
structure CdWorld where
  resolve : String → Option String
  chdirOk : String → Bool

/-- Result of a `run_cd` call: the new shell state and whether an error
was reported via `perror`. -/
structure CdResult where
  state : ShellState
  errReported : Bool
deriving DecidableEq, Repr

/-- `run_cd` (execute.c lines 118-140): NULL path → report, no change;
`realpath` failure → report, no change; `chdir` failure → report, no
change; on success the working directory becomes the canonical path and,
provided `getcwd` succeeds into the 1024-byte stack buffer (i.e. the
path's characters and terminating NUL fit: length < 1024), `PWD` is set
to it — when the path does not fit, the `setenv` is silently skipped. -/
def run_cd (w : CdWorld) (dir : Option String) (st : ShellState) : CdResult :=
  match dir with
  | none => ⟨st, true⟩
  | some d =>
    match w.resolve d with
    | none => ⟨st, true⟩
    | some real_path =>
      if w.chdirOk real_path then
        if real_path.length < 1024 then
          ⟨⟨real_path, setenv_upd st.env "PWD" real_path⟩, false⟩
        else
          ⟨⟨real_path, st.env⟩, false⟩
      else ⟨st, true⟩

/-! ## Concrete inputs used to settle the claims -/

/-- Stage 0 of the pipeline `ls | wc`: `PIPE_OUT` set. -/
def holderLs : CommandHolder :=
  { flags := { pipe_out := true }, cmd := .generic ⟨["ls"], { pipe_out := true }⟩ }

/-- Stage 1 of the pipeline `ls | wc`: no flags. -/
def holderWc : CommandHolder :=
  { flags := {}, cmd := .generic ⟨["wc"], {}⟩ }

/-- The `EOC` sentinel stage. -/
def holderEoc : CommandHolder := { flags := {}, cmd := .eoc }

/-- The two-stage pipeline `ls | wc` followed by the sentinel. -/
def pipelineLsWc : List CommandHolder := [holderLs, holderWc, holderEoc]

/-- A one-stage pipeline `echo hi`. -/
def pipelineEchoHi : List CommandHolder :=
  [{ flags := {}, cmd := .echo ["hi"] }, holderEoc]

/-- A registry holding exactly one finished, not-yet-reported job. -/
def regOneFinished : Registry := [⟨1, 42, "sleep 1", true⟩]

/-- The generic command of a background stage `sleep 10 &`. -/
def bgSleep : GenericCommand := ⟨["sleep", "10"], { background := true }⟩

/-- The generic command of a foreground stage `ls`. -/
def fgLs : GenericCommand := ⟨["ls"], {}⟩

/-- A stage with both `REDIRECT_OUT` (to `out.txt`) and `PIPE_OUT` set. -/
def holderBoth : CommandHolder :=
  { flags := { pipe_out := true, redirect_out := true }, redirect_out := "out.txt",
    cmd := .generic ⟨["ls"], {}⟩ }

/-- A stage whose command is `export FOO=bar` (a parent-side built-in). -/
def holderExport : CommandHolder := { flags := {}, cmd := .exportEnv "FOO" "bar" }

/-- A canonical path of exactly 1024 characters: too long for the
1024-byte `getcwd` buffer in `run_cd`. -/
def longPath : String := String.mk (List.replicate 1024 'a')

/-- A filesystem in which every path resolves to `longPath` and `chdir`
always succeeds. -/
def cdWorldLong : CdWorld := ⟨fun _ => some longPath, fun _ => true⟩

/-- A filesystem in which every path resolves to `/a` and `chdir` always
succeeds. -/
def cdWorldA : CdWorld := ⟨fun _ => some "/a", fun _ => true⟩

/-! ## Helper lemmas -/

/-- Every branch of `run_generic` returns control to the process that
invoked it: the one `execvp` happens in the process it forks, never in the
caller. -/
theorem run_generic_sem_returns (cmd : GenericCommand) (forkOk execOk : Bool) :
    (run_generic_sem cmd forkOk execOk).returnsToCaller = true := by
  unfold run_generic_sem
  cases h1 : cmd.args.isEmpty <;> cases forkOk <;> cases h2 : cmd.flags.background <;>
    simp [h1, h2]

/-- `setenv` followed by `getenv` of the same name yields the new value. -/
theorem env_lookup_setenv_upd (env : List (String × String)) (name val : String) :
    env_lookup (setenv_upd env name val) name = some val := by
  induction env with
  | nil => simp [setenv_upd, env_lookup]
  | cons p t ih =>
    by_cases hp : p.1 = name
    · simp [setenv_upd, hp, env_lookup]
    · simp [setenv_upd, hp, env_lookup, ih]

/-- Folding string concatenation distributes over a fixed prefix of the
accumulator. -/
theorem foldl_append_shift (l : List String) : ∀ (x y : String),
    l.foldl (fun r s => r ++ s) (x ++ y) = x ++ l.foldl (fun r s => r ++ s) y := by
  induction l with
  | nil => intro x y; rfl
  | cons b u ihu =>
    intro x y
    simp only [List.foldl_cons]
    rw [String.append_assoc, ihu]

/-- `String.join` peels off its head summand. -/
theorem join_cons (s : String) (l : List String) :
    String.join (s :: l) = s ++ String.join l := by
  show l.foldl (fun r t => r ++ t) ("" ++ s) = s ++ String.join l
  rw [String.empty_append]
  calc l.foldl (fun r t => r ++ t) s
      = l.foldl (fun r t => r ++ t) (s ++ "") := by rw [String.append_empty]
    _ = s ++ l.foldl (fun r t => r ++ t) "" := foldl_append_shift l s ""
    _ = s ++ String.join l := rfl

/-- The echo loop's left fold, with an arbitrary accumulated prefix. -/
theorem run_echo_foldl (args : List String) (acc : String) :
    args.foldl (fun acc a => acc ++ a ++ " ") acc
      = acc ++ String.join (args.map (fun a => a ++ " ")) := by
  induction args generalizing acc with
  | nil => simp [String.join]
  | cons a t ih =>
    simp only [List.foldl_cons, List.map_cons, ih, join_cons]
    simp [String.append_assoc]

/-! ## Claims -/

/-- Claim C1 (code_bug). A stage with `PipeToNext` gets its stdout dup2-ed
onto the pipe's write end, but the pipe's read end is never dup2-ed onto
any later stage's stdin: `fds` is local to `create_process`, `run_script`
threads nothing between stages, and no `PIPE_IN` branch exists. For the
pipeline `ls | wc`, stage 0's stdout is pipe 0's write end while stage 1's
stdin is the shell's own (inherited) stdin, not pipe 0's read end. -/
theorem C1_pipe_read_end_never_connected :
    (run_script pipelineLsWc []).spawns =
      [⟨.generic ⟨["ls"], { pipe_out := true }⟩, ⟨.inherited, .pipeWrite 0, [], []⟩⟩,
       ⟨.generic ⟨["wc"], {}⟩, ⟨.inherited, .inherited, [], []⟩⟩]
    ∧ FdSrc.inherited ≠ FdSrc.pipeRead 0 := by decide

/-- Claim C2 (code_bug). The completion poll in `check_jobs_bg_status` is
compiled out (`#ifdef get_finished_job` is false for a function), so a
pipeline run while the registry holds a finished background job prints no
completion notice and removes nothing, while the spec's poll prints exactly
one notice for that job and drops it from the table. -/
theorem C2_completion_poll_does_nothing :
    (run_script pipelineEchoHi regOneFinished).polledNotices = []
    ∧ check_jobs_bg_status regOneFinished = (regOneFinished, [])
    ∧ spec_poll_finished_jobs regOneFinished =
        ([], [print_job_bg_complete_line 1 42 "sleep 1"])
    ∧ (check_jobs_bg_status regOneFinished).2 ≠ (spec_poll_finished_jobs regOneFinished).2 := by
  decide

/-- Claim C3 (code_bug). For a background stage, the `add_background_job`
call and the start notice execute in the process `create_process` forked
(`Proc.stageChild`), not in the shell's own process: the shell's copy of
the job table is never mutated. The call does return without waiting. -/
theorem C3_registration_not_in_shell :
    (run_generic_sem bgSleep true true).registeredIn = some Proc.stageChild
    ∧ Proc.stageChild ≠ Proc.shell
    ∧ (run_generic_sem bgSleep true true).startNoticeIn = some Proc.stageChild
    ∧ (run_generic_sem bgSleep true true).waited = false := by decide

/-- Claim C4 counterexample: with both `RedirectStdoutToFile` and
`PipeToNext` set, the pipe's `dup2` comes last, so the stage's stdout is
the pipe's write end, not the opened file. -/
theorem C4_redirect_does_not_win :
    (child_setup_fds holderBoth 0).stdout = FdSrc.pipeWrite 0
    ∧ (child_setup_fds holderBoth 0).stdout ≠ FdSrc.file "out.txt" := by decide

/-- Claim C4 (corrected). Amended: when `PipeToNext` is set, the pipe
wiring takes precedence — the stage's stdout finally points at the pipe's
write end even when `RedirectStdoutToFile` is also set; the redirect file
is still opened (created/truncated) but receives none of the stage's
stdout. -/
theorem C4_pipe_overrides_redirect (h : CommandHolder) (pid : Nat)
    (hp : h.flags.pipe_out = true) :
    (child_setup_fds h pid).stdout = FdSrc.pipeWrite pid
    ∧ (h.flags.redirect_out = true →
        (child_setup_fds h pid).openedWrite = [h.redirect_out]) := by
  unfold child_setup_fds
  cases hri : h.flags.redirect_in <;> cases hro : h.flags.redirect_out <;>
    simp [hp, hri, hro]

/-- Witness for `C4_pipe_overrides_redirect` at the two-flag stage. -/
theorem C4_pipe_overrides_redirect_witness :
    (child_setup_fds holderBoth 0).stdout = FdSrc.pipeWrite 0
    ∧ (holderBoth.flags.redirect_out = true →
        (child_setup_fds holderBoth 0).openedWrite = [holderBoth.redirect_out]) :=
  C4_pipe_overrides_redirect holderBoth 0 rfl

/-- Claim C5 counterexample: a successful directory change to a
1024-character canonical path changes the working directory without any
reported error but skips the `PWD` update, because `getcwd` fails on the
1024-byte buffer. -/
theorem C5_pwd_update_skipped_on_long_path :
    (run_cd cdWorldLong (some "d") ⟨"/", []⟩).errReported = false
    ∧ (run_cd cdWorldLong (some "d") ⟨"/", []⟩).state.cwd = longPath
    ∧ env_lookup (run_cd cdWorldLong (some "d") ⟨"/", []⟩).state.env "PWD" = none := by
  have hLP : longPath.length = 1024 := by
    rw [longPath, String.length_mk, List.length_replicate]
  have hlen : ¬ (longPath.length < 1024) := by
    rw [hLP]
    exact lt_irrefl 1024
  have hrun : run_cd cdWorldLong (some "d") ⟨"/", []⟩ = ⟨⟨longPath, []⟩, false⟩ := by
    simp [run_cd, cdWorldLong, hlen]
  rw [hrun]
  exact ⟨rfl, rfl, rfl⟩

/-- Claim C5 (corrected). Amended: `ChangeDirectory` with a null path, an
unresolvable path, or a failing `chdir` reports the error and leaves the
state unchanged; on a successful change the working directory becomes the
canonical path, and `PWD` is updated to it provided that path fits
`getcwd`'s 1024-byte buffer (length < 1024) — otherwise the directory
changes but `PWD` keeps its prior value. -/
theorem C5_run_cd_amended (w : CdWorld) (st : ShellState) (d p : String)
    (hres : w.resolve d = some p) (hch : w.chdirOk p = true)
    (hlen : p.length < 1024) :
    (run_cd w (some d) st).state.cwd = p
    ∧ env_lookup (run_cd w (some d) st).state.env "PWD" = some p
    ∧ (run_cd w (some d) st).errReported = false
    ∧ run_cd w none st = ⟨st, true⟩
    ∧ (∀ q, w.resolve q = none → run_cd w (some q) st = ⟨st, true⟩)
    ∧ (∀ q p2, w.resolve q = some p2 → w.chdirOk p2 = false →
        run_cd w (some q) st = ⟨st, true⟩) := by
  refine ⟨?_, ?_, ?_, rfl, ?_, ?_⟩
  · simp [run_cd, hres, hch, hlen]
  · simp [run_cd, hres, hch, hlen, env_lookup_setenv_upd]
  · simp [run_cd, hres, hch, hlen]
  · intro q hq
    simp [run_cd, hq]
  · intro q p2 hq hc
    simp [run_cd, hq, hc]

/-- Witness for `C5_run_cd_amended` in the `/a` world. -/
theorem C5_run_cd_amended_witness :
    (run_cd cdWorldA (some "/a") ⟨"/", []⟩).state.cwd = "/a"
    ∧ env_lookup (run_cd cdWorldA (some "/a") ⟨"/", []⟩).state.env "PWD" = some "/a"
    ∧ (run_cd cdWorldA (some "/a") ⟨"/", []⟩).errReported = false
    ∧ run_cd cdWorldA none ⟨"/", []⟩ = ⟨⟨"/", []⟩, true⟩
    ∧ (∀ q, cdWorldA.resolve q = none →
        run_cd cdWorldA (some q) ⟨"/", []⟩ = ⟨⟨"/", []⟩, true⟩)
    ∧ (∀ q p2, cdWorldA.resolve q = some p2 → cdWorldA.chdirOk p2 = false →
        run_cd cdWorldA (some q) ⟨"/", []⟩ = ⟨⟨"/", []⟩, true⟩) :=
  C5_run_cd_amended cdWorldA ⟨"/", []⟩ "/a" "/a" rfl rfl (by decide)

/-- Claim C6 counterexample: `run_generic` on `ls` forks an additional
process — the `execvp` happens in that new process — and returns control to
its caller, contradicting "replaces the current (spawned) process image
... without creating any additional process ... without returning to its
caller". -/
theorem C6_exec_not_in_calling_process :
    (run_generic_sem fgLs true true).forkedNew = some Proc.grandchild
    ∧ (run_generic_sem fgLs true true).newOutcome =
        some (ChildOutcome.execReplaced "ls")
    ∧ (run_generic_sem fgLs true true).returnsToCaller = true := by decide

/-- Claim C6 (corrected). Amended: `RunExternal` with a non-empty argument
vector forks one additional process; that process's image is replaced by
the named program when `execvp` succeeds, and otherwise it reports the
failure and exits with `EXIT_FAILURE` (non-zero) without returning; the
invoking process itself never execs — it waits for the new process when the
command is not background, registers it as a background job otherwise, and
returns to its caller in every case. -/
theorem C6_run_generic_amended (cmd : GenericCommand) (execOk : Bool)
    (hne : cmd.args ≠ []) :
    (run_generic_sem cmd true execOk).forkedNew = some Proc.grandchild
    ∧ (run_generic_sem cmd true execOk).newOutcome =
        some (if execOk then ChildOutcome.execReplaced (cmd.args.headD "")
              else ChildOutcome.exited EXIT_FAILURE)
    ∧ (cmd.flags.background = false → (run_generic_sem cmd true execOk).waited = true)
    ∧ (cmd.flags.background = true →
        (run_generic_sem cmd true execOk).registeredIn = some Proc.stageChild
        ∧ (run_generic_sem cmd true execOk).waited = false)
    ∧ (run_generic_sem cmd true execOk).returnsToCaller = true
    ∧ EXIT_FAILURE ≠ 0 := by
  have hni : cmd.args.isEmpty = false := by
    cases h : cmd.args with
    | nil => exact absurd h hne
    | cons a t => rfl
  cases hb : cmd.flags.background <;>
    simp [run_generic_sem, hni, hb, EXIT_FAILURE]

/-- Witness for `C6_run_generic_amended` at `ls`. -/
theorem C6_run_generic_amended_witness :
    (run_generic_sem fgLs true true).forkedNew = some Proc.grandchild
    ∧ (run_generic_sem fgLs true true).newOutcome =
        some (if true then ChildOutcome.execReplaced (fgLs.args.headD "")
              else ChildOutcome.exited EXIT_FAILURE)
    ∧ (fgLs.flags.background = false → (run_generic_sem fgLs true true).waited = true)
    ∧ (fgLs.flags.background = true →
        (run_generic_sem fgLs true true).registeredIn = some Proc.stageChild
        ∧ (run_generic_sem fgLs true true).waited = false)
    ∧ (run_generic_sem fgLs true true).returnsToCaller = true
    ∧ EXIT_FAILURE ≠ 0 :=
  C6_run_generic_amended fgLs true (by decide)

/-- Claim C7 (code_bug). `create_process` never tests for `fork` failure:
a `-1` return takes the parent branch, so no error is reported, no child
exists, and `parent_run_command` still runs on the stage's command — here
`export FOO=bar` executes despite the failed spawn. -/
theorem C7_fork_failure_unchecked :
    create_process_shell holderExport (-1) =
      { childCreated := false, parentRanOn := some (Command.exportEnv "FOO" "bar"),
        errReported := false } := by decide

/-- Claim C8 (confirmed). `run_echo` writes each argument followed by a
single space and then one newline; on `["a","b"]` it produces exactly
`"a b \n"`. -/
theorem C8_run_echo_format :
    (∀ args : List String,
        run_echo args = String.join (args.map (fun a => a ++ " ")) ++ "\n")
    ∧ run_echo ["a", "b"] = "a b \n" := by
  constructor
  · intro args
    unfold run_echo
    rw [run_echo_foldl args "", String.empty_append]
  · decide

/-- Claim C9 counterexample: `print_job` renders the pid with `%8d`, so
job 1 / pid 42 / display `ls` yields `"[1]\t      42\tls\n"` — six padding
spaces before the pid — not the claimed `"[1]\t42\tls\n"`. -/
theorem C9_pid_field_padded :
    print_job_line 1 42 "ls" = "[1]\t      42\tls\n"
    ∧ print_job_line 1 42 "ls" ≠ claimed_job_line 1 42 "ls" := by decide

/-- Claim C9 (corrected). Amended: the job lines match the claimed formats
except that the pid field is right-justified to a minimum width of 8
characters with space padding (`%8d`); the prefixes
`"Background job started: "` and `"Completed: \t"` and the single-tab
separators are as claimed, and for pids of at least 8 digits the listing
line equals the claimed format exactly. -/
theorem C9_job_line_formats (job_id pid : Nat) (cmd : String) :
    print_job_line job_id pid cmd =
      "[" ++ toString job_id ++ "]\t"
        ++ (String.mk (List.replicate (8 - (toString pid).length) ' ')
            ++ (toString pid ++ ("\t" ++ (cmd ++ "\n"))))
    ∧ print_job_bg_start_line job_id pid cmd
        = "Background job started: " ++ print_job_line job_id pid cmd
    ∧ print_job_bg_complete_line job_id pid cmd
        = "Completed: \t" ++ print_job_line job_id pid cmd
    ∧ (8 ≤ (toString pid).length →
        print_job_line job_id pid cmd = claimed_job_line job_id pid cmd) := by
  refine ⟨?_, rfl, rfl, ?_⟩
  · simp [print_job_line, fmt_min_width, String.append_assoc]
  · intro h8
    have h0 : 8 - (toString pid).length = 0 := Nat.sub_eq_zero_of_le h8
    have hmk : String.mk ([] : List Char) = "" := rfl
    simp [print_job_line, claimed_job_line, fmt_min_width, h0, hmk,
      String.append_assoc]

/-- Witness for `C9_job_line_formats` at an 8-digit pid. -/
theorem C9_job_line_formats_witness :
    print_job_line 1 12345678 "ls" = claimed_job_line 1 12345678 "ls" :=
  (C9_job_line_formats 1 12345678 "ls").2.2.2 (by decide)

/-- Claim C10 (confirmed). The process forked by `create_process` never
execs (the only `execvp` is in `run_generic`'s own forked process), so
after `child_run_command` returns it always reaches `_exit(EXIT_FAILURE)`:
its collected status is `EXIT_FAILURE` for every command kind — including
a successful `echo`, `pwd`, `jobs`, or waited-for external command — and
never `EXIT_SUCCESS`. -/
theorem C10_stage_child_exits_failure :
    ∀ (cmd : Command) (forkOk execOk : Bool),
      stage_child_outcome cmd forkOk execOk = ChildOutcome.exited EXIT_FAILURE
      ∧ EXIT_FAILURE ≠ EXIT_SUCCESS := by
  intro cmd fk ek
  refine ⟨?_, by decide⟩
  cases cmd
  case generic g => simp [stage_child_outcome, run_generic_sem_returns g fk ek]
  all_goals rfl

end Quash
